import Mathlib

/-!
Shallow embedding of the core of `sensor.py` from the `affarsverken_waste`
integration: the persistent JSON cache store (`_load_cache_data`,
`_save_cache_data`), the token manager (`_get_auth_token`), the building
resolver (`search_building_id`), the waste-response parser
(`parse_collection_dates`) and the per-address refresh operation
(`async_update_data_for_address`).

Modelling conventions:
* JSON documents are `JValue`; Python `dict.get` on a non-dict raises
  `AttributeError`, which the embedding surfaces as `PyErr.attributeError`.
* Machine time is an integer count of seconds (`Int`); the library
  pair `datetime.isoformat` / `datetime.fromisoformat` is modelled by an
  executable integer/string codec (`isoformat` / `fromisoformat`) which is
  a bijection between timestamps and its set of valid timestamp strings;
  any string outside that set makes `fromisoformat` fail, which models
  `ValueError` from `datetime.fromisoformat`.
* Network traffic is an oracle argument (`LoginResp`, `SearchResp`), and
  functions count the requests they issue (`loginCalls`, `searchCalls`).
* The cache file is `FsState`: absent, unreadable (`IOError` on open/read),
  present but not valid JSON (decodable text that `json.load` rejects with
  `json.JSONDecodeError`), present but undecodable (non-UTF-8 bytes, on
  which `json.load` raises `UnicodeDecodeError` — a `ValueError` subclass
  that the source's `except (IOError, json.JSONDecodeError)` does not
  catch), or present with a parsed JSON document.
  `SaveErr` injects write-time I/O errors: `atOpen` (the `open(path, 'w')`
  call itself fails, file untouched), `midWrite` (the file was truncated by
  `open('w')` and the subsequent write failed, leaving content that no
  longer parses as the prior document).
-/

/-- Python exception kinds the embedded code can raise or catch. -/
inductive PyErr where
  | attributeError
  | valueError
  | typeError
  | ioErr
  | jsonDecodeError
  | unicodeDecodeError
deriving DecidableEq

/-- JSON values (Python objects produced by `json.load` / `response.json()`).
Numbers are modelled as integers, which covers every number appearing in
this program's data. -/
inductive JValue where
  | null
  | jbool (b : Bool)
  | jnum (n : Int)
  | jstr (s : String)
  | jarr (elems : List JValue)
  | jobj (fields : List (String × JValue))

/-- Python truthiness for the modelled values (`if x:`). -/
def truthy : JValue → Bool
  | .null => false
  | .jbool b => b
  | .jnum n => n != 0
  | .jstr s => s != ""
  | .jarr elems => !elems.isEmpty
  | .jobj fields => !fields.isEmpty

/-- Truthiness of a `dict.get` result (`None` is falsy). -/
def truthyO : Option JValue → Bool
  | none => false
  | some v => truthy v

/-- First-match association-list lookup (Python `dict` lookup). -/
def lookupJ : List (String × JValue) → String → Option JValue
  | [], _ => none
  | (k, v) :: rest, key => if k = key then some v else lookupJ rest key

/-- Python `x.get(key)`: `None` when missing, `AttributeError` when `x`
is not a dict. -/
def jget : JValue → String → Except PyErr (Option JValue)
  | .jobj fields, key => .ok (lookupJ fields key)
  | _, _ => .error .attributeError

/-- Update-or-append for a dict field, keeping insertion order (Python
`d[key] = v` semantics on a dict). -/
def setField : List (String × JValue) → String → JValue → List (String × JValue)
  | [], key, v => [(key, v)]
  | (k, w) :: rest, key, v =>
      if k = key then (k, v) :: rest else (k, w) :: setField rest key v

/-- Python `x[key] = v`: `TypeError` when `x` does not support item
assignment. -/
def jset : JValue → String → JValue → Except PyErr JValue
  | .jobj fields, key, v => .ok (.jobj (setField fields key v))
  | _, _, _ => .error .typeError


/-- `BUILDING_CACHE_LIFETIME = timedelta(days=30)`, in seconds. -/
def BUILDING_CACHE_LIFETIME : Int := 2592000

/-- One decimal digit to its character. -/
def digitToChar (d : Nat) : Char := Char.ofNat (48 + d)

/-- A character back to its decimal digit, when it is one. -/
def charToDigit (c : Char) : Option Nat :=
  if 48 ≤ c.toNat && c.toNat ≤ 57 then some (c.toNat - 48) else none

/-- Fuel-driven decimal printer (most significant digit first); the fuel
bounds the number of digits and is in practice `n + 1`. -/
def printNatAux : Nat → Nat → List Char → List Char
  | 0, _, acc => acc
  | fuel + 1, n, acc =>
      if n < 10 then digitToChar n :: acc
      else printNatAux fuel (n / 10) (digitToChar (n % 10) :: acc)

/-- Decimal representation of a natural number. -/
def printNat (n : Nat) : List Char := printNatAux (n + 1) n []

/-- Left fold of decimal digits; fails on any non-digit character. -/
def parseNatAux : List Char → Nat → Option Nat
  | [], acc => some acc
  | c :: rest, acc =>
      match charToDigit c with
      | some d => parseNatAux rest (acc * 10 + d)
      | none => none

/-- Parse a nonempty all-digit string as a natural number. -/
def parseNat : List Char → Option Nat
  | [] => none
  | cs => parseNatAux cs 0

/-- Model of `datetime.isoformat()`: the canonical string encoding of a
timestamp. -/
def isoformat (t : Int) : String :=
  if t < 0 then String.mk ('-' :: printNat t.natAbs)
  else String.mk (printNat t.natAbs)

/-- Model of `datetime.fromisoformat` on a character list: the inverse of
`isoformat`; any other string is rejected (Python raises `ValueError`). -/
def fromisoformatChars : List Char → Option Int
  | [] => none
  | c :: rest =>
      if c = '-' then
        match parseNat rest with
        | some n => some (-(n : Int))
        | none => none
      else
        match parseNat (c :: rest) with
        | some n => some ((n : Int))
        | none => none

/-- Model of `datetime.fromisoformat` on a string. -/
def fromisoformat (s : String) : Option Int := fromisoformatChars s.data

/-- `datetime.fromisoformat` applied to an arbitrary value: a non-string
raises `TypeError`, an unparsable string raises `ValueError`. -/
def fromisoformatJ : JValue → Except PyErr Int
  | .jstr s =>
      match fromisoformat s with
      | some t => .ok t
      | none => .error .valueError
  | _ => .error .typeError

/-- ASCII whitespace for the model of `str.strip()`. -/
def isPySpace (c : Char) : Bool :=
  c = ' ' || c = '\t' || c = '\n' || c = '\r' || c = '\x0b' || c = '\x0c'

/-- Model of Python `str.strip()` (whitespace restricted to ASCII). -/
def pyStrip (s : String) : String :=
  String.mk (((s.data.dropWhile isPySpace).reverse.dropWhile isPySpace).reverse)

/-- State of the cache file on disk: missing, unreadable, present as text
that is not valid JSON, present as undecodable non-UTF-8 bytes, or present
with the given parsed document. -/
inductive FsState where
  | absent
  | unreadable
  | invalidJson
  | undecodableBytes
  | content (doc : JValue)

/-- Injected failure while saving: none, an `IOError` from `open(path, 'w')`
itself (file untouched), or an `IOError` after `open('w')` truncated the
file (leaving content that no longer parses as the prior document). -/
inductive SaveErr where
  | noErr
  | atOpen
  | midWrite

/-- The body of the `try` block of `_load_cache_data`: `open` + `json.load`.
An unreadable file raises `IOError`; decodable text that is not valid JSON
raises `json.JSONDecodeError`; a file of undecodable non-UTF-8 bytes opens
fine in text mode but raises `UnicodeDecodeError` (a `ValueError`
subclass) when `json.load` reads it. (`absent` is unreachable: the
`os.path.exists` check returns first.) -/
def readAndParse : FsState → Except PyErr JValue
  | .absent => .error .ioErr
  | .unreadable => .error .ioErr
  | .invalidJson => .error .jsonDecodeError
  | .undecodableBytes => .error .unicodeDecodeError
  | .content doc => .ok doc

/-- `_load_cache_data` (sensor.py:65): absent file gives `{}`; `IOError`
and `JSONDecodeError` are caught and give `{}`; any other exception —
notably `UnicodeDecodeError` from an undecodable file — propagates to the
caller; otherwise the parsed document is returned. -/
def _load_cache_data (fs : FsState) : Except PyErr JValue :=
  match fs with
  | .absent => .ok (.jobj [])
  | fs' =>
      match readAndParse fs' with
      | .ok doc => .ok doc
      | .error .ioErr => .ok (.jobj [])
      | .error .jsonDecodeError => .ok (.jobj [])
      | .error e => .error e

/-- `_save_cache_data` (sensor.py:78): `open(path, 'w')` then `json.dump`,
with `IOError` caught and logged. `open('w')` truncates before writing, so
a failure after a successful open loses the prior content. -/
def _save_cache_data (fs : FsState) (data : JValue) (e : SaveErr) :
    Except PyErr FsState :=
  match e with
  | .noErr => .ok (.content data)
  | .atOpen => .ok fs
  | .midWrite => .ok .invalidJson

/-- Result of `jwt.decode(token, options={"verify_signature": False})`, an
oracle attached to the login response body: decode failure
(`jwt.DecodeError`), success without an `exp` claim, or success with the
given `exp` timestamp. -/
inductive JwtInfo where
  | undecodable
  | noExp
  | withExp (exp : Int)

/-- Outcome of `requests.post(LOGIN_API_URL)`: a transport error or non-2xx
status (`raise_for_status`), both landing in the `RequestException`
handler, or a 2xx response with the given body text. -/
inductive LoginResp where
  | err
  | ok (body : String) (jwt : JwtInfo)

/-- Result of one `_get_auth_token` run: the returned value (`.error` when
a Python exception propagates to the caller), the cache-file state
afterwards, and how many login requests were issued. -/
structure AuthRes where
  res : Except PyErr (Option JValue)
  fs : FsState
  loginCalls : Nat

/-- Lines 107-111 of sensor.py: parse `token_expiration_time` with
`datetime.fromisoformat` when the field is truthy. A malformed value makes
the exception propagate. -/
def parseExpiry : Option JValue → Except PyErr (Option Int)
  | none => .ok none
  | some v =>
      if truthy v then
        match fromisoformatJ v with
        | .ok t => .ok (some t)
        | .error e => .error e
      else .ok none

/-- Line 113 of sensor.py: `token_expiration_time and now < token_expiration_time`. -/
def expiryFresh : Option Int → Int → Bool
  | some t, now => decide (now < t)
  | none, _ => false

/-- Lines 138-154 of sensor.py: the new token's expiration time, from the
`exp` claim minus five minutes when present, defaulting to one hour from
now when the claim is absent or the token undecodable. -/
def tokenExpiry : JwtInfo → Int → Int
  | .withExp e, _ => e - 300
  | .noExp, now => now + 3600
  | .undecodable, now => now + 3600

/-- Lines 119-164 of sensor.py: the login request and its processing, run
once the cached token is rejected. Counts one login call in every outcome. -/
def authRemote (cache_data : JValue) (fs : FsState) (now : Int)
    (login : LoginResp) (saveErr : SaveErr) : AuthRes :=
  match login with
  | .err => ⟨.ok none, fs, 1⟩
  | .ok body jwtInfo =>
      if pyStrip body = "" then ⟨.ok none, fs, 1⟩
      else
        match jset cache_data "token" (.jstr (pyStrip body)) with
        | .error e => ⟨.error e, fs, 1⟩
        | .ok c1 =>
            match jset c1 "token_expiration_time"
                (.jstr (isoformat (tokenExpiry jwtInfo now))) with
            | .error e => ⟨.error e, fs, 1⟩
            | .ok c2 =>
                match _save_cache_data fs c2 saveErr with
                | .error e => ⟨.error e, fs, 1⟩
                | .ok fs2 => ⟨.ok (some (.jstr (pyStrip body))), fs2, 1⟩

/-- `_get_auth_token` (sensor.py:98-164): load the cache document, reuse a
cached unexpired token, otherwise obtain a fresh one via `authRemote`. -/
def _get_auth_token (fs : FsState) (now : Int) (login : LoginResp)
    (saveErr : SaveErr) : AuthRes :=
  match _load_cache_data fs with
  | .error e => ⟨.error e, fs, 0⟩
  | .ok cache_data =>
      match jget cache_data "token" with
      | .error e => ⟨.error e, fs, 0⟩
      | .ok cached_token =>
          match jget cache_data "token_expiration_time" with
          | .error e => ⟨.error e, fs, 0⟩
          | .ok expiration_str =>
              match parseExpiry expiration_str with
              | .error e => ⟨.error e, fs, 0⟩
              | .ok token_expiration_time =>
                  if truthyO cached_token && expiryFresh token_expiration_time now then
                    ⟨.ok cached_token, fs, 0⟩
                  else authRemote cache_data fs now login saveErr

/-- Outcome of `requests.get` on the building-search URL: transport error,
non-2xx status or unparsable JSON body (all `RequestException`), or a
parsed JSON body. -/
inductive SearchResp where
  | err
  | ok (v : JValue)

/-- Result of one `search_building_id` run: the returned value (`.error`
when a Python exception propagates), the cache-file state afterwards, and
how many login and building-search requests were issued. -/
structure SearchRes where
  res : Except PyErr (Option JValue)
  fs : FsState
  loginCalls : Nat
  searchCalls : Nat

/-- Lines 180-189 of sensor.py: consult the cached building entry. Returns
`some query_param` when a fresh entry answers the request, `none` to fall
through to the network search. -/
def cachedLookup (info : Option JValue) (now : Int) :
    Except PyErr (Option JValue) :=
  match info with
  | none => .ok none
  | some infoV =>
      if !truthy infoV then .ok none
      else
        match jget infoV "last_updated" with
        | .error e => .error e
        | .ok luOpt =>
            match jget infoV "query_param" with
            | .error e => .error e
            | .ok qpOpt =>
                if truthyO luOpt && truthyO qpOpt then
                  match luOpt with
                  | some luV =>
                      match fromisoformatJ luV with
                      | .error e => .error e
                      | .ok lu =>
                          if now - lu < BUILDING_CACHE_LIFETIME then .ok qpOpt
                          else .ok none
                  | none => .ok none
                else .ok none

/-- Lines 193-236 of sensor.py: the building-search request and its
processing. Counts one search call in every outcome. An empty or non-list
body, or a falsy `query` field, yields `None`; on success the entry is
upserted and the document saved. -/
def searchRemote (cache_data buildings_cache : JValue) (address : String)
    (now : Int) (fs : FsState) (lc : Nat) (resp : SearchResp)
    (saveErr : SaveErr) : SearchRes :=
  match resp with
  | .err => ⟨.ok none, fs, lc, 1⟩
  | .ok v =>
      match v with
      | .jarr (first :: _) =>
          (match jget first "query" with
           | .error e => ⟨.error e, fs, lc, 1⟩
           | .ok qpOpt =>
               if !truthyO qpOpt then ⟨.ok none, fs, lc, 1⟩
               else
                 match jset buildings_cache address
                     (.jobj [("query_param", qpOpt.getD .null),
                             ("last_updated", .jstr (isoformat now))]) with
                 | .error e => ⟨.error e, fs, lc, 1⟩
                 | .ok bc2 =>
                     match jset cache_data "buildings" bc2 with
                     | .error e => ⟨.error e, fs, lc, 1⟩
                     | .ok cd2 =>
                         match _save_cache_data fs cd2 saveErr with
                         | .error e => ⟨.error e, fs, lc, 1⟩
                         | .ok fs2 => ⟨.ok (some (qpOpt.getD .null)), fs2, lc, 1⟩)
      | _ => ⟨.ok none, fs, lc, 1⟩

/-- `search_building_id` (sensor.py:166-236): require a token, consult the
cached building entry, otherwise search over the network. -/
def search_building_id (fs : FsState) (address : String) (now : Int)
    (login : LoginResp) (saveTokenErr : SaveErr) (resp : SearchResp)
    (saveBuildingErr : SaveErr) : SearchRes :=
  match _get_auth_token fs now login saveTokenErr with
  | ⟨.error e, afs, alc⟩ => ⟨.error e, afs, alc, 0⟩
  | ⟨.ok tokenOpt, afs, alc⟩ =>
      if !truthyO tokenOpt then ⟨.ok none, afs, alc, 0⟩
      else
        match _load_cache_data afs with
        | .error e => ⟨.error e, afs, alc, 0⟩
        | .ok cache_data =>
            match jget cache_data "buildings" with
            | .error e => ⟨.error e, afs, alc, 0⟩
            | .ok bopt =>
                match jget (bopt.getD (.jobj [])) address with
                | .error e => ⟨.error e, afs, alc, 0⟩
                | .ok cbi =>
                    match cachedLookup cbi now with
                    | .error e => ⟨.error e, afs, alc, 0⟩
                    | .ok (some qp) => ⟨.ok (some qp), afs, alc, 0⟩
                    | .ok none =>
                        searchRemote cache_data (bopt.getD (.jobj [])) address now
                          afs alc resp saveBuildingErr

/-- A Python `datetime.date`. -/
structure PyDate where
  year : Nat
  month : Nat
  day : Nat
deriving DecidableEq

/-- A hashable Python dict key as used by `parse_collection_dates`:
`None`, a number (Python `True == 1` and `False == 0` collide with the
integers, so booleans map onto numbers), or a string. Lists and dicts are
unhashable. -/
inductive PyKey where
  | noneK
  | numK (n : Int)
  | strK (s : String)
deriving DecidableEq

/-- Dict-key view of a value; `none` for unhashable values (using one as a
key raises `TypeError`). -/
def toKey : JValue → Option PyKey
  | .null => some .noneK
  | .jbool b => some (.numK (if b then 1 else 0))
  | .jnum n => some (.numK n)
  | .jstr s => some (.strK s)
  | .jarr _ => none
  | .jobj _ => none

/-- Update-or-append on the collected dates dict (`collection_dates[title] = d`). -/
def kinsert : List (PyKey × PyDate) → PyKey → PyDate → List (PyKey × PyDate)
  | [], k, d => [(k, d)]
  | (k0, d0) :: rest, k, d =>
      if k0 = k then (k0, d) :: rest else (k0, d0) :: kinsert rest k d

/-- Decimal digit test. -/
def isDig (c : Char) : Bool := 48 ≤ c.toNat && c.toNat ≤ 57

/-- Value of a digit character. -/
def digitVal (c : Char) : Nat := c.toNat - 48

/-- CPython `_strptime` `%Y`: exactly four decimal digits. -/
def parseYear : List Char → Option (Nat × List Char)
  | a :: b :: c :: d :: rest =>
      if isDig a && isDig b && isDig c && isDig d then
        some (((digitVal a * 10 + digitVal b) * 10 + digitVal c) * 10 + digitVal d, rest)
      else none
  | _ => none

/-- CPython `_strptime` `%m`, the regex `1[0-2]|0[1-9]|[1-9]`: candidate
(month, rest) pairs in the regex alternation order (a leading zero is
optional, as documented for `strptime`). -/
def monthCands (cs : List Char) : List (Nat × List Char) :=
  (match cs with
   | '1' :: c :: rest => if '0' ≤ c && c ≤ '2' then [(10 + digitVal c, rest)] else []
   | _ => []) ++
  (match cs with
   | '0' :: c :: rest => if '1' ≤ c && c ≤ '9' then [(digitVal c, rest)] else []
   | _ => []) ++
  (match cs with
   | c :: rest => if '1' ≤ c && c ≤ '9' then [(digitVal c, rest)] else []
   | _ => [])

/-- CPython `_strptime` `%d`, the regex `3[01]|[12]\d|0[1-9]|[1-9]`:
candidate (day, rest) pairs in the regex alternation order. -/
def dayCands (cs : List Char) : List (Nat × List Char) :=
  (match cs with
   | '3' :: c :: rest => if '0' ≤ c && c ≤ '1' then [(30 + digitVal c, rest)] else []
   | _ => []) ++
  (match cs with
   | '1' :: c :: rest => if isDig c then [(10 + digitVal c, rest)] else []
   | _ => []) ++
  (match cs with
   | '2' :: c :: rest => if isDig c then [(20 + digitVal c, rest)] else []
   | _ => []) ++
  (match cs with
   | '0' :: c :: rest => if '1' ≤ c && c ≤ '9' then [(digitVal c, rest)] else []
   | _ => []) ++
  (match cs with
   | c :: rest => if '1' ≤ c && c ≤ '9' then [(digitVal c, rest)] else []
   | _ => [])

/-- The first (leftmost in alternation order) match of the full
`%Y-%m-%d` pattern, with the unconsumed remainder of the input. -/
def firstYMDMatch (cs : List Char) : Option (Nat × Nat × Nat × List Char) :=
  match parseYear cs with
  | none => none
  | some (y, r1) =>
      match r1 with
      | '-' :: r2 =>
          (monthCands r2).findSome? fun mc =>
            match mc.2 with
            | '-' :: r4 =>
                (dayCands r4).findSome? fun dc => some (y, mc.1, dc.1, dc.2)
            | _ => none
      | _ => none

/-- Gregorian leap year, as in `datetime`. -/
def leapYear (y : Nat) : Bool := y % 4 = 0 && (y % 100 != 0 || y % 400 = 0)

/-- Days in a month, as validated by the `datetime` constructor. -/
def daysInMonth (y m : Nat) : Nat :=
  if m = 2 then (if leapYear y then 29 else 28)
  else if m = 4 || m = 6 || m = 9 || m = 11 then 30
  else 31

/-- Model of `datetime.strptime(s, "%Y-%m-%d").date()`: match the pattern,
reject unconverted trailing data, and validate the calendar date
(`MINYEAR = 1`, day within the month). `none` models the `ValueError`
that the caller catches. -/
def strptimeYMD (s : String) : Option PyDate :=
  match firstYMDMatch s.data with
  | some (y, m, d, leftover) =>
      if leftover.isEmpty && 1 ≤ y && d ≤ daysInMonth y m then
        some ⟨y, m, d⟩
      else none
  | none => none

/-- The loop of `parse_collection_dates` (sensor.py:283-299) over the
`services` list, accumulating the collected dates dict. A service entry
that is not a dict raises `AttributeError`; a truthy non-string
`nextPickup` raises `TypeError` from `strptime`; an unhashable truthy
`title` raises `TypeError` at the dict assignment; a `ValueError` from
`strptime` is caught and the entry skipped. -/
def parseServicesLoop : List JValue → List (PyKey × PyDate) →
    Except PyErr (List (PyKey × PyDate))
  | [], acc => .ok acc
  | s :: rest, acc =>
      match jget s "title" with
      | .error e => .error e
      | .ok titleOpt =>
          match jget s "nextPickup" with
          | .error e => .error e
          | .ok npOpt =>
              if !(truthyO titleOpt && truthyO npOpt) then
                parseServicesLoop rest acc
              else
                match npOpt with
                | some (.jstr npStr) =>
                    (match strptimeYMD npStr with
                     | some d =>
                         (match titleOpt with
                          | some titleV =>
                              (match toKey titleV with
                               | some k => parseServicesLoop rest (kinsert acc k d)
                               | none => .error .typeError)
                          | none => parseServicesLoop rest acc)
                     | none => parseServicesLoop rest acc)
                | some _ => .error .typeError
                | none => parseServicesLoop rest acc

/-- `parse_collection_dates` (sensor.py:274-300): require a `services`
list (anything else yields an empty dict), then collect
`title -> next pickup date` over its entries. -/
def parse_collection_dates (data : JValue) :
    Except PyErr (List (PyKey × PyDate)) :=
  match jget data "services" with
  | .error e => .error e
  | .ok (some (.jarr services)) => parseServicesLoop services []
  | .ok _ => .ok []

/-- Modelled from the spec's parse skip rules ("require both `title` and
`nextPickup`; entries missing either are skipped ...; unparsable dates are
skipped ..."): the record one service entry contributes, or `none` when it
is skipped. Used to compare `parse_collection_dates` against the spec. -/
def extractService (s : JValue) : Option (PyKey × PyDate) :=
  match s with
  | .jobj fields =>
      if !(truthyO (lookupJ fields "title") && truthyO (lookupJ fields "nextPickup"))
      then none
      else
        match lookupJ fields "nextPickup", lookupJ fields "title" with
        | some (.jstr npStr), some titleV =>
            (match strptimeYMD npStr, toKey titleV with
             | some d, some k => some (k, d)
             | _, _ => none)
        | _, _ => none
  | _ => none

/-- Modelled from the spec: the mapping produced by applying the skip
rules entrywise, duplicates by title overwriting (last one wins). -/
def parseServicesSpec (services : List JValue) : List (PyKey × PyDate) :=
  (services.filterMap extractService).foldl (fun acc kd => kinsert acc kd.1 kd.2) []

/-- A service entry on which the parse loop cannot raise: it is a dict,
its `nextPickup` is a string whenever it is truthy, and its `title` is
hashable whenever the entry reaches the dict assignment. -/
def goodEntry (s : JValue) : Bool :=
  match s with
  | .jobj fields =>
      (match lookupJ fields "nextPickup" with
       | none => true
       | some (.jstr _) => true
       | some v => !truthy v) &&
      (match lookupJ fields "title", lookupJ fields "nextPickup" with
       | some t, some np => !(truthy t && truthy np) || (toKey t).isSome
       | _, _ => true)
  | _ => false

/-- The textual pattern `YYYY-MM-DD` (four digits, dash, two digits, dash,
two digits), as the spec's words "the exact date pattern `YYYY-MM-DD`"
read literally. -/
def exactYMDPattern (s : String) : Bool :=
  match s.data with
  | [a, b, c, d, h1, e, f, h2, g, i] =>
      isDig a && isDig b && isDig c && isDig d && h1 = '-' &&
      isDig e && isDig f && h2 = '-' && isDig g && isDig i
  | _ => false

/-- Why one refresh cycle failed (the distinguishing inner cause; the
coordinator re-wraps every failure in `UpdateFailed`). -/
inductive UpdCause where
  | fetchFailed
  | noDatesParsed
  | exceptionRaised
deriving DecidableEq

/-- Outcome of `async_update_data_for_address`: `UpdateFailed`, or the
`{"parsed_dates": ..., "raw_data": ...}` result. -/
inductive UpdRes where
  | failed (c : UpdCause)
  | success (parsed : List (PyKey × PyDate)) (raw : JValue)

/-- `async_update_data_for_address` (sensor.py:316-329), as a function of
the `get_waste_data` result: a missing or falsy response fails; an
exception from parsing is caught by the blanket handler and fails; zero
parsed dates fail; otherwise both pieces are returned. -/
def async_update_data_for_address (waste_data : Option JValue) : UpdRes :=
  match waste_data with
  | none => .failed .fetchFailed
  | some w =>
      if !truthy w then .failed .fetchFailed
      else
        match parse_collection_dates w with
        | .error _ => .failed .exceptionRaised
        | .ok parsed =>
            if parsed.isEmpty then .failed .noDatesParsed
            else .success parsed w

/-- Fuel-driven count helper: `10 ^ (number of decimal digits of n)`. -/
def tenPowAux : Nat → Nat → Nat
  | 0, _ => 1
  | fuel + 1, n => if n < 10 then 10 else 10 * tenPowAux fuel (n / 10)

/-- `10 ^ (number of decimal digits of n)`, used to state the
printer/parser roundtrip. -/
def tenPow (n : Nat) : Nat := tenPowAux (n + 1) n

/-- Whether a document's `services` key is bound to a list. -/
def isServicesList (fields : List (String × JValue)) : Bool :=
  match lookupJ fields "services" with
  | some (.jarr _) => true
  | _ => false

/-- Whether a value is a dict. -/
def isDict : JValue → Bool
  | .jobj _ => true
  | _ => false

/-- The spec's example `services` payload: one parsable entry, one entry
with no `nextPickup`, one entry with an unparsable `nextPickup`. -/
def exampleServicesDoc : JValue :=
  .jobj [("services", .jarr
    [.jobj [("title", .jstr "Paper"), ("nextPickup", .jstr "2024-01-01")],
     .jobj [("title", .jstr "Glass")],
     .jobj [("title", .jstr "Food"), ("nextPickup", .jstr "not-a-date")]])]

/-- The fields of the cache document produced by a first
`search_building_id` run that starts from an empty document, logs in
(token body `body`, `exp` claim `e`), and resolves `address` to `qp` at
time `now1`. -/
def afterFirstResolveFields (address : String) (now1 e : Int) (body : String)
    (qp : JValue) : List (String × JValue) :=
  [("token", .jstr (pyStrip body)),
   ("token_expiration_time", .jstr (isoformat (e - 300))),
   ("buildings", .jobj [(address,
      .jobj [("query_param", qp),
             ("last_updated", .jstr (isoformat now1))])])]

theorem tenPowAux_irrel : ∀ f1 f2 n, n < f1 → n < f2 →
    tenPowAux f1 n = tenPowAux f2 n := by
  intro f1
  induction f1 with
  | zero => intro f2 n h1 _; omega
  | succ a ih =>
    intro f2 n h1 h2
    match f2 with
    | 0 => omega
    | b + 1 =>
      simp only [tenPowAux]
      by_cases hn : n < 10
      · simp [hn]
      · have hd : n / 10 < n := Nat.div_lt_self (by omega) (by omega)
        simp only [if_neg hn]
        rw [ih b (n / 10) (by omega) (by omega)]

theorem tenPow_small {n : Nat} (h : n < 10) : tenPow n = 10 := by
  simp [tenPow, tenPowAux, h]

theorem tenPow_step {n : Nat} (h : 10 ≤ n) : tenPow n = 10 * tenPow (n / 10) := by
  have hd : n / 10 < n := Nat.div_lt_self (by omega) (by omega)
  have h1 : tenPow n = 10 * tenPowAux n (n / 10) := by
    simp only [tenPow, tenPowAux, if_neg (by omega : ¬ n < 10)]
  rw [h1, tenPowAux_irrel n (n / 10 + 1) (n / 10) hd (by omega)]
  rfl

theorem charToDigit_digitToChar : ∀ d, d < 10 →
    charToDigit (digitToChar d) = some d := by decide

theorem digitToChar_ne_dash : ∀ d, d < 10 → digitToChar d ≠ '-' := by decide

theorem parse_print_aux : ∀ fuel n acc v, n < fuel →
    parseNatAux (printNatAux fuel n acc) v = parseNatAux acc (v * tenPow n + n) := by
  intro fuel
  induction fuel with
  | zero => intro n acc v h; omega
  | succ f ih =>
    intro n acc v h
    by_cases hn : n < 10
    · simp only [printNatAux, if_pos hn, parseNatAux, charToDigit_digitToChar n hn,
        tenPow_small hn]
    · have hd : n / 10 < n := Nat.div_lt_self (by omega) (by omega)
      simp only [printNatAux, if_neg hn]
      rw [ih (n / 10) (digitToChar (n % 10) :: acc) v (by omega)]
      simp only [parseNatAux, charToDigit_digitToChar (n % 10) (Nat.mod_lt n (by omega))]
      congr 1
      rw [tenPow_step (by omega : 10 ≤ n)]
      ring_nf
      omega

theorem printNatAux_ne_nil_of : ∀ fuel n acc, acc ≠ [] →
    printNatAux fuel n acc ≠ [] := by
  intro fuel
  induction fuel with
  | zero => intro n acc h; simpa [printNatAux] using h
  | succ f ih =>
    intro n acc h
    by_cases hn : n < 10
    · simp [printNatAux, hn]
    · simp only [printNatAux, if_neg hn]
      exact ih (n / 10) _ (by simp)

theorem printNat_ne_nil (n : Nat) : printNat n ≠ [] := by
  by_cases hn : n < 10
  · simp [printNat, printNatAux, hn]
  · simp only [printNat, printNatAux, if_neg hn]
    exact printNatAux_ne_nil_of n (n / 10) _ (by simp)

theorem parseNat_printNat (n : Nat) : parseNat (printNat n) = some n := by
  have hne := printNat_ne_nil n
  match h : printNat n with
  | [] => exact absurd h hne
  | c :: rest =>
    have : parseNat (c :: rest) = parseNatAux (c :: rest) 0 := rfl
    rw [this, ← h]
    have := parse_print_aux (n + 1) n [] 0 (by omega)
    simp only [printNat]
    rw [this]
    simp [parseNatAux]

theorem printNatAux_digits : ∀ fuel n acc,
    (∀ c ∈ acc, ∃ d, d < 10 ∧ c = digitToChar d) →
    ∀ c ∈ printNatAux fuel n acc, ∃ d, d < 10 ∧ c = digitToChar d := by
  intro fuel
  induction fuel with
  | zero => intro n acc h; simpa [printNatAux] using h
  | succ f ih =>
    intro n acc h c hc
    by_cases hn : n < 10
    · simp only [printNatAux, if_pos hn] at hc
      rcases List.mem_cons.mp hc with h1 | h2
      · exact ⟨n, hn, h1⟩
      · exact h c h2
    · simp only [printNatAux, if_neg hn] at hc
      refine ih (n / 10) _ ?_ c hc
      intro c' hc'
      rcases List.mem_cons.mp hc' with h1 | h2
      · exact ⟨n % 10, Nat.mod_lt n (by omega), h1⟩
      · exact h c' h2

theorem printNat_head_ne_dash (n : Nat) (c : Char) (rest : List Char)
    (h : printNat n = c :: rest) : c ≠ '-' := by
  have hm : c ∈ printNat n := by rw [h]; exact List.mem_cons_self c rest
  obtain ⟨d, hd, hcd⟩ := printNatAux_digits (n + 1) n []
    (by intro c' hc'; simp at hc') c hm
  rw [hcd]
  exact digitToChar_ne_dash d hd

theorem fromisoformat_isoformat (t : Int) : fromisoformat (isoformat t) = some t := by
  by_cases ht : t < 0
  · have : isoformat t = String.mk ('-' :: printNat t.natAbs) := by
      simp [isoformat, ht]
    rw [this]
    show fromisoformatChars ('-' :: printNat t.natAbs) = some t
    simp only [fromisoformatChars, if_pos rfl, parseNat_printNat]
    have : ((t.natAbs : Int)) = -t := Int.ofNat_natAbs_of_nonpos (show t ≤ 0 by omega)
    rw [this]
    simp
  · have hiso : isoformat t = String.mk (printNat t.natAbs) := by
      simp [isoformat, ht]
    rw [hiso]
    have hne := printNat_ne_nil t.natAbs
    match h : printNat t.natAbs with
    | [] => exact absurd h hne
    | c :: rest =>
      have hcd := printNat_head_ne_dash t.natAbs c rest h
      show fromisoformatChars (c :: rest) = some t
      simp only [fromisoformatChars, if_neg hcd, ← h, parseNat_printNat]
      have : ((t.natAbs : Int)) = t := Int.natAbs_of_nonneg (show 0 ≤ t by omega)
      rw [this]

theorem isoformat_ne_empty (t : Int) : isoformat t ≠ "" := by
  intro h
  have hd := congrArg String.data h
  by_cases ht : t < 0
  · simp [isoformat, ht] at hd
  · simp only [isoformat, if_neg ht] at hd
    exact printNat_ne_nil t.natAbs hd

theorem truthy_isoformat (t : Int) : truthy (.jstr (isoformat t)) = true := by
  simp [truthy, isoformat_ne_empty t]

theorem fromisoformatJ_isoformat (t : Int) :
    fromisoformatJ (.jstr (isoformat t)) = .ok t := by
  simp [fromisoformatJ, fromisoformat_isoformat t]

theorem save_never_raises (fs : FsState) (data : JValue) (e : SaveErr) :
    ∃ fs2, _save_cache_data fs data e = .ok fs2 := by
  cases e <;> exact ⟨_, rfl⟩

theorem authRemote_loginCalls (cache_data : JValue) (fs : FsState) (now : Int)
    (login : LoginResp) (saveErr : SaveErr) :
    (authRemote cache_data fs now login saveErr).loginCalls = 1 := by
  unfold authRemote
  repeat' split
  all_goals rfl

theorem authRemote_ok (fields : List (String × JValue)) (fs : FsState) (now : Int)
    (login : LoginResp) (saveErr : SaveErr) :
    ∃ r, (authRemote (.jobj fields) fs now login saveErr).res = .ok r := by
  cases login with
  | err => exact ⟨none, rfl⟩
  | ok body jwtInfo =>
    simp only [authRemote, jset]
    split
    · exact ⟨none, rfl⟩
    · cases saveErr <;> exact ⟨_, rfl⟩

theorem searchRemote_searchCalls (cache_data buildings_cache : JValue)
    (address : String) (now : Int) (fs : FsState) (lc : Nat) (resp : SearchResp)
    (saveErr : SaveErr) :
    (searchRemote cache_data buildings_cache address now fs lc resp saveErr).searchCalls = 1 := by
  unfold searchRemote
  repeat' split
  all_goals rfl

theorem auth_cached (fields : List (String × JValue)) (tok : String) (texp now : Int)
    (login : LoginResp) (saveErr : SaveErr)
    (htok : lookupJ fields "token" = some (.jstr tok)) (hne : tok ≠ "")
    (hexp : lookupJ fields "token_expiration_time" = some (.jstr (isoformat texp)))
    (hfresh : now < texp) :
    _get_auth_token (.content (.jobj fields)) now login saveErr =
      ⟨.ok (some (.jstr tok)), .content (.jobj fields), 0⟩ := by
  have h1 : (truthyO (some (JValue.jstr tok)) && expiryFresh (some texp) now) = true := by
    simp [truthyO, truthy, expiryFresh, hne, hfresh]
  unfold _get_auth_token _load_cache_data readAndParse
  simp only [jget, htok, hexp, parseExpiry, truthy_isoformat,
    fromisoformatJ_isoformat, h1, if_true]

theorem truthy_jobj_of_lookup {fields : List (String × JValue)} {k : String}
    {v : JValue} (h : lookupJ fields k = some v) : truthy (.jobj fields) = true := by
  cases fields with
  | nil => simp [lookupJ] at h
  | cons a rest => simp [truthy]

/-- Claim C5 (amended): whenever the cache file is absent, unreadable
(I/O error), or holds decodable text that is not valid JSON,
`_load_cache_data` returns the empty document and does not raise to the
caller. (A present file of undecodable non-UTF-8 bytes, however, makes it
raise `UnicodeDecodeError` — see the counterexample.) -/
theorem C5_theorem :
    _load_cache_data .absent = .ok (.jobj []) ∧
    _load_cache_data .unreadable = .ok (.jobj []) ∧
    _load_cache_data .invalidJson = .ok (.jobj []) :=
  ⟨rfl, rfl, rfl⟩

/-- Claim C5, counterexample to "never raises for every file-system state
with invalid JSON content": a cache file of undecodable non-UTF-8 bytes is
content that is not valid JSON, yet `json.load` raises
`UnicodeDecodeError` on it — a `ValueError` subclass that
`except (IOError, json.JSONDecodeError)` does not catch — so
`_load_cache_data` raises to the caller instead of returning the empty
document. -/
theorem C5_counterexample :
    _load_cache_data .undecodableBytes = .error .unicodeDecodeError ∧
    (.error .unicodeDecodeError : Except PyErr JValue) ≠ .ok (.jobj []) :=
  ⟨rfl, fun h => Except.noConfusion h⟩

/-- Claim C2 (amended): `_save_cache_data` never raises on an I/O error,
and when the error occurs at `open` time the prior on-disk state is
untouched. (An error after a successful `open('w')` does not preserve the
prior content, because the open truncates the file first — see the
counterexample.) -/
theorem C2_amended (fs : FsState) (data : JValue) (e : SaveErr) :
    (∃ fs2, _save_cache_data fs data e = .ok fs2) ∧
    _save_cache_data fs data .atOpen = .ok fs :=
  ⟨save_never_raises fs data e, rfl⟩

/-- Claim C2, counterexample to "the prior on-disk cache document is left
untouched": an I/O error during writing (after `open('w')` truncated the
file) leaves the file without the previously persisted content, and a
subsequent load sees the empty document instead of the prior one. -/
theorem C2_counterexample :
    _save_cache_data (.content (.jobj [("token", .jstr "t")])) (.jobj []) .midWrite
      = .ok .invalidJson ∧
    FsState.invalidJson ≠ FsState.content (.jobj [("token", .jstr "t")]) ∧
    _load_cache_data .invalidJson = .ok (.jobj []) :=
  ⟨rfl, fun h => FsState.noConfusion h, rfl⟩

/-- Claim C1, counterexample to "never raises": a persisted cache document
whose `token_expiration_time` is a truthy string that is not a valid
timestamp makes `_get_auth_token` raise `ValueError` from
`datetime.fromisoformat` to its caller. -/
theorem C1_counterexample :
    (_get_auth_token (.content (.jobj
      [("token", .jstr "t"), ("token_expiration_time", .jstr "not-a-timestamp")]))
      0 .err .noErr).res = .error .valueError := rfl

/-- Claim C1 (amended): for every persisted cache document that is a JSON
object whose `token_expiration_time` field, when present and truthy,
parses as a valid timestamp, `_get_auth_token` either returns a token or
returns `None` and never raises to its caller, whatever the network does. -/
theorem C1_amended (fields : List (String × JValue)) (now : Int)
    (login : LoginResp) (saveErr : SaveErr)
    (hexp : ∀ v, lookupJ fields "token_expiration_time" = some v →
      truthy v = true → ∃ t, fromisoformatJ v = .ok t) :
    ∃ r, (_get_auth_token (.content (.jobj fields)) now login saveErr).res = .ok r := by
  have hrem := authRemote_ok fields (.content (.jobj fields)) now login saveErr
  unfold _get_auth_token
  simp only [_load_cache_data, readAndParse, jget]
  cases h : lookupJ fields "token_expiration_time" with
  | none =>
    simp only [parseExpiry, expiryFresh, Bool.and_false]
    simpa using hrem
  | some v =>
    cases htr : truthy v with
    | false =>
      simp only [parseExpiry, htr, Bool.false_eq_true, if_false, expiryFresh,
        Bool.and_false]
      simpa using hrem
    | true =>
      obtain ⟨t, hp⟩ := hexp v h htr
      simp only [parseExpiry, htr, if_true, hp]
      cases hc : truthyO (lookupJ fields "token") && expiryFresh (some t) now with
      | true => exact ⟨lookupJ fields "token", by simp [hc]⟩
      | false => simpa [hc] using hrem

theorem C1_witness :
    (∀ v, lookupJ [("token", JValue.jstr "t"),
        ("token_expiration_time", JValue.jstr (isoformat 50))]
        "token_expiration_time" = some v →
      truthy v = true → ∃ t, fromisoformatJ v = .ok t) ∧
    ∃ r, (_get_auth_token (.content (.jobj [("token", JValue.jstr "t"),
        ("token_expiration_time", JValue.jstr (isoformat 50))])) 0 .err
        .noErr).res = .ok r := by
  have hx : ∀ v, lookupJ [("token", JValue.jstr "t"),
      ("token_expiration_time", JValue.jstr (isoformat 50))]
      "token_expiration_time" = some v →
      truthy v = true → ∃ t, fromisoformatJ v = .ok t := by
    intro v hv _
    simp [lookupJ] at hv
    cases hv
    exact ⟨50, fromisoformatJ_isoformat 50⟩
  exact ⟨hx, C1_amended _ 0 .err .noErr hx⟩

/-- Claim C10: whenever `_get_auth_token` comes back without a token,
`search_building_id` returns `None` with zero search calls and the
building cache is never consulted: the outcome is the same for every
file-system state, including one holding a fresh entry for the address. -/
theorem C10_theorem (fs : FsState) (address : String) (now : Int)
    (login : LoginResp) (ste : SaveErr) (resp : SearchResp) (sbe : SaveErr)
    (afs : FsState) (alc : Nat)
    (hauth : _get_auth_token fs now login ste = ⟨.ok none, afs, alc⟩) :
    search_building_id fs address now login ste resp sbe = ⟨.ok none, afs, alc, 0⟩ := by
  unfold search_building_id
  rw [hauth]
  rfl

theorem C10_witness :
    _get_auth_token (.content (.jobj [("buildings", .jobj [("Main St 1",
        .jobj [("query_param", JValue.jstr "B123"),
               ("last_updated", JValue.jstr (isoformat 0))])])]))
      5 .err .noErr =
      ⟨.ok none, .content (.jobj [("buildings", .jobj [("Main St 1",
        .jobj [("query_param", JValue.jstr "B123"),
               ("last_updated", JValue.jstr (isoformat 0))])])]), 1⟩ ∧
    search_building_id (.content (.jobj [("buildings", .jobj [("Main St 1",
        .jobj [("query_param", JValue.jstr "B123"),
               ("last_updated", JValue.jstr (isoformat 0))])])]))
      "Main St 1" 5 .err .noErr (.ok (.jarr [])) .noErr =
      ⟨.ok none, .content (.jobj [("buildings", .jobj [("Main St 1",
        .jobj [("query_param", JValue.jstr "B123"),
               ("last_updated", JValue.jstr (isoformat 0))])])]), 1, 0⟩ :=
  ⟨rfl, C10_theorem _ "Main St 1" 5 .err .noErr (.ok (.jarr [])) .noErr _ 1 rfl⟩

/-- Claim C3: for every cache document holding a (nonempty) token and a
valid expiration timestamp, a current time strictly before the expiration
makes `_get_auth_token` return the cached token with zero network calls
and no state change, while a current time at or past the expiration makes
it issue exactly one fresh login call. -/
theorem C3_theorem (fields : List (String × JValue)) (tok : String)
    (texp now : Int) (login : LoginResp) (saveErr : SaveErr)
    (htok : lookupJ fields "token" = some (.jstr tok)) (hne : tok ≠ "")
    (hexp : lookupJ fields "token_expiration_time" = some (.jstr (isoformat texp))) :
    (now < texp →
      _get_auth_token (.content (.jobj fields)) now login saveErr =
        ⟨.ok (some (.jstr tok)), .content (.jobj fields), 0⟩) ∧
    (texp ≤ now →
      (_get_auth_token (.content (.jobj fields)) now login saveErr).loginCalls = 1) := by
  constructor
  · intro hfresh
    exact auth_cached fields tok texp now login saveErr htok hne hexp hfresh
  · intro hpast
    unfold _get_auth_token
    simp only [_load_cache_data, readAndParse, jget, htok, hexp, parseExpiry,
      truthy_isoformat, if_true, fromisoformatJ_isoformat, expiryFresh]
    rw [if_neg]
    · exact authRemote_loginCalls _ _ _ _ _
    · simp only [Bool.and_eq_true, decide_eq_true_eq, not_and]
      intro _ hlt
      omega

theorem C3_witness :
    lookupJ [("token", JValue.jstr "abc"),
      ("token_expiration_time", JValue.jstr (isoformat 10))] "token"
      = some (.jstr "abc") ∧
    ("abc" : String) ≠ "" ∧
    lookupJ [("token", JValue.jstr "abc"),
      ("token_expiration_time", JValue.jstr (isoformat 10))]
      "token_expiration_time" = some (.jstr (isoformat 10)) ∧
    _get_auth_token (.content (.jobj [("token", JValue.jstr "abc"),
      ("token_expiration_time", JValue.jstr (isoformat 10))])) 5 .err .noErr =
      ⟨.ok (some (.jstr "abc")), .content (.jobj [("token", JValue.jstr "abc"),
        ("token_expiration_time", JValue.jstr (isoformat 10))]), 0⟩ ∧
    (_get_auth_token (.content (.jobj [("token", JValue.jstr "abc"),
      ("token_expiration_time", JValue.jstr (isoformat 10))])) 10 .err
      .noErr).loginCalls = 1 := by
  refine ⟨rfl, by decide, rfl, ?_, ?_⟩
  · exact (C3_theorem [("token", JValue.jstr "abc"),
      ("token_expiration_time", JValue.jstr (isoformat 10))] "abc" 10 5 .err
      .noErr rfl (by decide) rfl).1 (by omega)
  · exact (C3_theorem [("token", JValue.jstr "abc"),
      ("token_expiration_time", JValue.jstr (isoformat 10))] "abc" 10 10 .err
      .noErr rfl (by decide) rfl).2 (by omega)

/-- Claim C4 (amended): for every dict input without a `services` key
bound to a list, `parse_collection_dates` returns the empty mapping and
does not raise; a non-dict input (array, string, number, boolean, null),
however, raises `AttributeError` (the falsy ones among them are
intercepted earlier by the orchestrator's emptiness check, the truthy ones
reach the parser and raise, which the orchestrator's blanket handler turns
into a failed cycle). -/
theorem C4_amended :
    (∀ fields, isServicesList fields = false →
      parse_collection_dates (.jobj fields) = .ok []) ∧
    (∀ v, isDict v = false →
      parse_collection_dates v = .error .attributeError) := by
  constructor
  · intro fields h
    unfold parse_collection_dates
    simp only [jget]
    unfold isServicesList at h
    cases hs : lookupJ fields "services" with
    | none => rfl
    | some v =>
      rw [hs] at h
      cases v with
      | jarr elems => simp at h
      | null => rfl
      | jbool b => rfl
      | jnum n => rfl
      | jstr s => rfl
      | jobj fl => rfl
  · intro v h
    cases v with
    | jobj fl => simp [isDict] at h
    | null => rfl
    | jbool b => rfl
    | jnum n => rfl
    | jstr s => rfl
    | jarr elems => rfl

/-- Claim C4, counterexample to "does not raise for every input": a truthy
non-object response body (here the JSON array `[1]`) makes
`parse_collection_dates` raise `AttributeError` on `data.get`. -/
theorem C4_counterexample :
    parse_collection_dates (.jarr [.jnum 1]) = .error .attributeError := rfl

theorem C4_witness :
    isServicesList [("services", JValue.jstr "x")] = false ∧
    parse_collection_dates (.jobj [("services", JValue.jstr "x")]) = .ok [] ∧
    isDict (.jarr []) = false ∧
    parse_collection_dates (.jarr []) = .error .attributeError :=
  ⟨rfl, C4_amended.1 _ rfl, rfl, C4_amended.2 _ rfl⟩

/-- Claim C9: when the waste endpoint returns a structurally valid
response (a dict with a `services` list) whose parse yields zero records,
the per-address update fails with `UpdateFailed`; when the parse yields
records, the update succeeds with `{parsed_dates, raw_data}`. -/
theorem C9_theorem (fields : List (String × JValue)) (svs : List JValue)
    (hs : lookupJ fields "services" = some (.jarr svs)) :
    (parse_collection_dates (.jobj fields) = .ok [] →
      async_update_data_for_address (some (.jobj fields)) = .failed .noDatesParsed) ∧
    (∀ p, parse_collection_dates (.jobj fields) = .ok p → p ≠ [] →
      async_update_data_for_address (some (.jobj fields)) = .success p (.jobj fields)) := by
  have htr : truthy (.jobj fields) = true := truthy_jobj_of_lookup hs
  constructor
  · intro hp
    simp [async_update_data_for_address, htr, hp]
  · intro p hp hne
    cases p with
    | nil => exact absurd rfl hne
    | cons a r => simp [async_update_data_for_address, htr, hp]

theorem C9_witness :
    lookupJ [("services", JValue.jarr [])] "services" = some (.jarr []) ∧
    parse_collection_dates (.jobj [("services", JValue.jarr [])]) = .ok [] ∧
    async_update_data_for_address (some (.jobj [("services", JValue.jarr [])]))
      = .failed .noDatesParsed ∧
    async_update_data_for_address (some (.jobj [("services", JValue.jarr
        [.jobj [("title", JValue.jstr "Paper"),
                ("nextPickup", JValue.jstr "2024-01-01")]])]))
      = .success [(.strK "Paper", ⟨2024, 1, 1⟩)] (.jobj [("services", JValue.jarr
        [.jobj [("title", JValue.jstr "Paper"),
                ("nextPickup", JValue.jstr "2024-01-01")]])]) := by
  refine ⟨rfl, rfl, (C9_theorem [("services", JValue.jarr [])] [] rfl).1 rfl, ?_⟩
  exact (C9_theorem [("services", JValue.jarr
      [.jobj [("title", JValue.jstr "Paper"),
              ("nextPickup", JValue.jstr "2024-01-01")]])]
    [.jobj [("title", JValue.jstr "Paper"),
            ("nextPickup", JValue.jstr "2024-01-01")]] rfl).2
    [(.strK "Paper", ⟨2024, 1, 1⟩)] rfl (by simp)

theorem cachedLookup_entry (efields : List (String × JValue)) (now lu : Int)
    (qp : JValue)
    (hlu : lookupJ efields "last_updated" = some (.jstr (isoformat lu)))
    (hqp : lookupJ efields "query_param" = some qp) (hq : truthy qp = true) :
    cachedLookup (some (.jobj efields)) now =
      (if now - lu < BUILDING_CACHE_LIFETIME then .ok (some qp) else .ok none) := by
  have htr : truthy (.jobj efields) = true := truthy_jobj_of_lookup hlu
  unfold cachedLookup
  simp only [htr, Bool.not_true, Bool.false_eq_true, if_false, jget, hlu, hqp,
    truthyO, truthy_isoformat, hq, Bool.and_self, if_true, fromisoformatJ_isoformat]

theorem search_after_cached_auth (fields bfields efields : List (String × JValue))
    (tok : String) (texp now lu : Int) (qp : JValue) (address : String)
    (login : LoginResp) (ste sbe : SaveErr) (resp : SearchResp)
    (htok : lookupJ fields "token" = some (.jstr tok)) (hne : tok ≠ "")
    (hexp : lookupJ fields "token_expiration_time" = some (.jstr (isoformat texp)))
    (hfresh : now < texp)
    (hb : lookupJ fields "buildings" = some (.jobj bfields))
    (he : lookupJ bfields address = some (.jobj efields))
    (hlu : lookupJ efields "last_updated" = some (.jstr (isoformat lu)))
    (hqp : lookupJ efields "query_param" = some qp) (hq : truthy qp = true) :
    search_building_id (.content (.jobj fields)) address now login ste resp sbe =
      if now - lu < BUILDING_CACHE_LIFETIME
      then ⟨.ok (some qp), .content (.jobj fields), 0, 0⟩
      else searchRemote (.jobj fields) (.jobj bfields) address now
        (.content (.jobj fields)) 0 resp sbe := by
  have hauth := auth_cached fields tok texp now login ste htok hne hexp hfresh
  have hcl := cachedLookup_entry efields now lu qp hlu hqp hq
  have htt : truthy (.jstr tok) = true := by simp [truthy, hne]
  unfold search_building_id
  rw [hauth]
  simp only [truthyO, htt, Bool.not_true, Bool.false_eq_true, if_false,
    _load_cache_data, readAndParse, jget, hb, Option.getD, he, hcl]
  by_cases hlt : now - lu < BUILDING_CACHE_LIFETIME
  · simp [hlt]
  · simp [hlt]

theorem search_cached_hit (fields bfields efields : List (String × JValue))
    (tok : String) (texp now lu : Int) (qp : JValue) (address : String)
    (login : LoginResp) (ste sbe : SaveErr) (resp : SearchResp)
    (htok : lookupJ fields "token" = some (.jstr tok)) (hne : tok ≠ "")
    (hexp : lookupJ fields "token_expiration_time" = some (.jstr (isoformat texp)))
    (hfresh : now < texp)
    (hb : lookupJ fields "buildings" = some (.jobj bfields))
    (he : lookupJ bfields address = some (.jobj efields))
    (hlu : lookupJ efields "last_updated" = some (.jstr (isoformat lu)))
    (hqp : lookupJ efields "query_param" = some qp) (hq : truthy qp = true)
    (hlt : now - lu < BUILDING_CACHE_LIFETIME) :
    search_building_id (.content (.jobj fields)) address now login ste resp sbe =
      ⟨.ok (some qp), .content (.jobj fields), 0, 0⟩ := by
  rw [search_after_cached_auth fields bfields efields tok texp now lu qp address
    login ste sbe resp htok hne hexp hfresh hb he hlu hqp hq]
  simp [hlt]

/-- Claim C7: given a valid cached token, a cached building entry whose
`last_updated` lies exactly 30 days in the past is stale and the resolver
issues a search network call, while an entry strictly younger than 30 days
answers the request from the cache with zero network calls. -/
theorem C7_theorem (fields bfields efields : List (String × JValue))
    (tok : String) (texp now lu : Int) (qp : JValue) (address : String)
    (login : LoginResp) (ste sbe : SaveErr) (resp : SearchResp)
    (htok : lookupJ fields "token" = some (.jstr tok)) (hne : tok ≠ "")
    (hexp : lookupJ fields "token_expiration_time" = some (.jstr (isoformat texp)))
    (hfresh : now < texp)
    (hb : lookupJ fields "buildings" = some (.jobj bfields))
    (he : lookupJ bfields address = some (.jobj efields))
    (hlu : lookupJ efields "last_updated" = some (.jstr (isoformat lu)))
    (hqp : lookupJ efields "query_param" = some qp) (hq : truthy qp = true) :
    (now - lu = BUILDING_CACHE_LIFETIME →
      (search_building_id (.content (.jobj fields)) address now login ste resp
        sbe).searchCalls = 1) ∧
    (now - lu < BUILDING_CACHE_LIFETIME →
      search_building_id (.content (.jobj fields)) address now login ste resp sbe =
        ⟨.ok (some qp), .content (.jobj fields), 0, 0⟩) := by
  constructor
  · intro heq
    rw [search_after_cached_auth fields bfields efields tok texp now lu qp address
      login ste sbe resp htok hne hexp hfresh hb he hlu hqp hq]
    rw [if_neg (by unfold BUILDING_CACHE_LIFETIME at heq ⊢; omega)]
    exact searchRemote_searchCalls _ _ _ _ _ _ _ _
  · intro hlt
    exact search_cached_hit fields bfields efields tok texp now lu qp address
      login ste sbe resp htok hne hexp hfresh hb he hlu hqp hq hlt

theorem C7_witness :
    ((2591999 : Int) - 0 < BUILDING_CACHE_LIFETIME) ∧
    ((2592000 : Int) - 0 = BUILDING_CACHE_LIFETIME) ∧
    search_building_id (.content (.jobj [("token", JValue.jstr "abc"),
        ("token_expiration_time", JValue.jstr (isoformat 3000000)),
        ("buildings", .jobj [("Main St 1", .jobj
          [("query_param", JValue.jstr "B123"),
           ("last_updated", JValue.jstr (isoformat 0))])])]))
      "Main St 1" 2591999 .err .noErr (.ok (.jarr [])) .noErr =
      ⟨.ok (some (.jstr "B123")), .content (.jobj [("token", JValue.jstr "abc"),
        ("token_expiration_time", JValue.jstr (isoformat 3000000)),
        ("buildings", .jobj [("Main St 1", .jobj
          [("query_param", JValue.jstr "B123"),
           ("last_updated", JValue.jstr (isoformat 0))])])]), 0, 0⟩ ∧
    (search_building_id (.content (.jobj [("token", JValue.jstr "abc"),
        ("token_expiration_time", JValue.jstr (isoformat 3000000)),
        ("buildings", .jobj [("Main St 1", .jobj
          [("query_param", JValue.jstr "B123"),
           ("last_updated", JValue.jstr (isoformat 0))])])]))
      "Main St 1" 2592000 .err .noErr (.ok (.jarr [])) .noErr).searchCalls = 1 := by
  refine ⟨by decide, by decide, ?_, ?_⟩
  · exact (C7_theorem [("token", JValue.jstr "abc"),
      ("token_expiration_time", JValue.jstr (isoformat 3000000)),
      ("buildings", .jobj [("Main St 1", .jobj
        [("query_param", JValue.jstr "B123"),
         ("last_updated", JValue.jstr (isoformat 0))])])]
      [("Main St 1", .jobj [("query_param", JValue.jstr "B123"),
        ("last_updated", JValue.jstr (isoformat 0))])]
      [("query_param", JValue.jstr "B123"),
       ("last_updated", JValue.jstr (isoformat 0))]
      "abc" 3000000 2591999 0 (.jstr "B123") "Main St 1" .err .noErr .noErr
      (.ok (.jarr [])) rfl (by decide) rfl (by decide) rfl rfl rfl rfl rfl).2
      (by decide)
  · exact (C7_theorem [("token", JValue.jstr "abc"),
      ("token_expiration_time", JValue.jstr (isoformat 3000000)),
      ("buildings", .jobj [("Main St 1", .jobj
        [("query_param", JValue.jstr "B123"),
         ("last_updated", JValue.jstr (isoformat 0))])])]
      [("Main St 1", .jobj [("query_param", JValue.jstr "B123"),
        ("last_updated", JValue.jstr (isoformat 0))])]
      [("query_param", JValue.jstr "B123"),
       ("last_updated", JValue.jstr (isoformat 0))]
      "abc" 3000000 2592000 0 (.jstr "B123") "Main St 1" .err .noErr .noErr
      (.ok (.jarr [])) rfl (by decide) rfl (by decide) rfl rfl rfl rfl rfl).1
      (by decide)

theorem search_first_resolve (address : String) (now1 e : Int) (body : String)
    (qp : JValue) (hbody : pyStrip body ≠ "") (hq : truthy qp = true) :
    search_building_id (.content (.jobj [])) address now1 (.ok body (.withExp e))
        .noErr (.ok (.jarr [.jobj [("query", qp)]])) .noErr =
      ⟨.ok (some qp),
       .content (.jobj (afterFirstResolveFields address now1 e body qp)), 1, 1⟩ := by
  have htt : truthy (.jstr (pyStrip body)) = true := by simp [truthy, hbody]
  have hauth : _get_auth_token (.content (.jobj [])) now1 (.ok body (.withExp e))
      .noErr =
      ⟨.ok (some (.jstr (pyStrip body))),
       .content (.jobj [("token", .jstr (pyStrip body)),
         ("token_expiration_time", .jstr (isoformat (e - 300)))]), 1⟩ := by
    unfold _get_auth_token
    simp [_load_cache_data, readAndParse, jget, lookupJ, parseExpiry,
      truthyO, expiryFresh, authRemote, tokenExpiry, jset, setField,
      _save_cache_data, hbody]
  unfold search_building_id
  rw [hauth]
  simp [truthyO, htt, _load_cache_data, readAndParse, jget, lookupJ,
    cachedLookup, searchRemote, hq, jset, setField, _save_cache_data,
    afterFirstResolveFields]

/-- Claim C6 (amended): two back-to-back resolves of the same address,
starting from an empty cache document, issue exactly one building-search
network call in total; the first call additionally issues one login call
(no valid token was cached beforehand), and the second call issues no
network calls at all, being answered from the persisted cache. -/
theorem C6_amended (address : String) (now1 now2 e : Int) (body : String)
    (qp : JValue) (login2 : LoginResp) (ste2 sbe2 : SaveErr) (resp2 : SearchResp)
    (hbody : pyStrip body ≠ "") (hq : truthy qp = true)
    (hfresh : now2 < e - 300) (hwin : now2 - now1 < BUILDING_CACHE_LIFETIME) :
    search_building_id (.content (.jobj [])) address now1 (.ok body (.withExp e))
        .noErr (.ok (.jarr [.jobj [("query", qp)]])) .noErr =
      ⟨.ok (some qp),
       .content (.jobj (afterFirstResolveFields address now1 e body qp)), 1, 1⟩ ∧
    search_building_id
        (.content (.jobj (afterFirstResolveFields address now1 e body qp)))
        address now2 login2 ste2 resp2 sbe2 =
      ⟨.ok (some qp),
       .content (.jobj (afterFirstResolveFields address now1 e body qp)), 0, 0⟩ := by
  constructor
  · exact search_first_resolve address now1 e body qp hbody hq
  · exact search_cached_hit (afterFirstResolveFields address now1 e body qp)
      [(address, .jobj [("query_param", qp),
        ("last_updated", .jstr (isoformat now1))])]
      [("query_param", qp), ("last_updated", .jstr (isoformat now1))]
      (pyStrip body) (e - 300) now2 now1 qp address login2 ste2 sbe2 resp2
      (by simp [afterFirstResolveFields, lookupJ]) hbody
      (by simp [afterFirstResolveFields, lookupJ]) hfresh
      (by simp [afterFirstResolveFields, lookupJ])
      (by simp [lookupJ]) (by simp [lookupJ]) (by simp [lookupJ]) hq hwin

/-- Claim C6, counterexample to "exactly one network call in total": with
no token cached beforehand, the first resolve issues one login call plus
one search call and the second resolve is answered from the cache with
zero calls, so the two calls together issue two network requests, not one
— even though the second call falls within the 30-day window and the
first call's search succeeded. -/
theorem C6_counterexample :
    search_building_id (.content (.jobj [])) "Main St 1" 0
        (.ok "tok" (.withExp 1000)) .noErr
        (.ok (.jarr [.jobj [("query", JValue.jstr "B123")]])) .noErr =
      ⟨.ok (some (.jstr "B123")),
       .content (.jobj (afterFirstResolveFields "Main St 1" 0 1000 "tok"
         (.jstr "B123"))), 1, 1⟩ ∧
    search_building_id (.content (.jobj (afterFirstResolveFields "Main St 1" 0
        1000 "tok" (.jstr "B123")))) "Main St 1" 100 .err .noErr .err .noErr =
      ⟨.ok (some (.jstr "B123")),
       .content (.jobj (afterFirstResolveFields "Main St 1" 0 1000 "tok"
         (.jstr "B123"))), 0, 0⟩ ∧
    (1 + 1) + (0 + 0) ≠ 1 :=
  ⟨rfl, rfl, by decide⟩

theorem C6_witness :
    pyStrip "tok" ≠ "" ∧ truthy (JValue.jstr "B123") = true ∧
    ((100 : Int) < 1000 - 300) ∧ ((100 : Int) - 0 < BUILDING_CACHE_LIFETIME) ∧
    (search_building_id (.content (.jobj [])) "Main St 1" 0
        (.ok "tok" (.withExp 1000)) .noErr
        (.ok (.jarr [.jobj [("query", JValue.jstr "B123")]])) .noErr =
      ⟨.ok (some (.jstr "B123")),
       .content (.jobj (afterFirstResolveFields "Main St 1" 0 1000 "tok"
         (.jstr "B123"))), 1, 1⟩ ∧
    search_building_id (.content (.jobj (afterFirstResolveFields "Main St 1" 0
        1000 "tok" (.jstr "B123")))) "Main St 1" 100 .err .noErr .err .noErr =
      ⟨.ok (some (.jstr "B123")),
       .content (.jobj (afterFirstResolveFields "Main St 1" 0 1000 "tok"
         (.jstr "B123"))), 0, 0⟩) := by
  refine ⟨by decide, rfl, by decide, by decide, ?_⟩
  exact C6_amended "Main St 1" 0 100 1000 "tok" (.jstr "B123") .err .noErr
    .noErr .err (by decide) rfl (by decide) (by decide)

theorem parseServicesLoop_spec (services : List JValue) :
    ∀ acc, services.all goodEntry = true →
    parseServicesLoop services acc =
      .ok ((services.filterMap extractService).foldl
        (fun a kd => kinsert a kd.1 kd.2) acc) := by
  induction services with
  | nil => intro acc _; rfl
  | cons s rest ih =>
    intro acc hall
    rw [List.all_cons, Bool.and_eq_true] at hall
    obtain ⟨hs, hrest⟩ := hall
    cases s with
    | null => simp [goodEntry] at hs
    | jbool b => simp [goodEntry] at hs
    | jnum n => simp [goodEntry] at hs
    | jstr str => simp [goodEntry] at hs
    | jarr l => simp [goodEntry] at hs
    | jobj sf =>
      unfold goodEntry at hs
      rw [Bool.and_eq_true] at hs
      obtain ⟨hA, hB⟩ := hs
      unfold parseServicesLoop
      simp only [jget]
      cases hc : (truthyO (lookupJ sf "title") && truthyO (lookupJ sf "nextPickup")) with
      | false =>
        have hex : extractService (.jobj sf) = none := by
          simp only [extractService]
          rw [hc]
          rfl
        rw [List.filterMap_cons_none hex]
        simp only [Bool.not_false, eq_self_iff_true, if_true]
        exact ih acc hrest
      | true =>
        have hct : truthyO (lookupJ sf "title") = true :=
          (Bool.and_eq_true _ _ |>.mp hc).1
        have hcn : truthyO (lookupJ sf "nextPickup") = true :=
          (Bool.and_eq_true _ _ |>.mp hc).2
        simp only [Bool.not_true, Bool.false_eq_true, if_false]
        cases hnp : lookupJ sf "nextPickup" with
        | none => rw [hnp] at hcn; simp [truthyO] at hcn
        | some npv =>
          rw [hnp] at hA hB hcn
          simp only [truthyO] at hcn
          cases ht : lookupJ sf "title" with
          | none => rw [ht] at hct; simp [truthyO] at hct
          | some tv =>
            rw [ht] at hB hct
            simp only [truthyO] at hct
            cases npv with
            | jstr npStr =>
              dsimp only
              cases hd : strptimeYMD npStr with
              | none =>
                have hex : extractService (.jobj sf) = none := by
                  simp only [extractService]
                  rw [hc, hnp, ht]
                  simp [hd]
                rw [List.filterMap_cons_none hex]
                dsimp only
                exact ih acc hrest
              | some d =>
                dsimp only
                have hkk : (toKey tv).isSome = true := by
                  dsimp only at hB
                  rw [hct, hcn] at hB
                  simpa using hB
                cases hk : toKey tv with
                | none => rw [hk] at hkk; simp at hkk
                | some k =>
                  dsimp only
                  have hex : extractService (.jobj sf) = some (k, d) := by
                    simp only [extractService]
                    rw [hc, hnp, ht]
                    simp [hd, hk]
                  rw [List.filterMap_cons_some hex, List.foldl_cons]
                  exact ih (kinsert acc k d) hrest
            | null => simp [truthy] at hcn
            | jbool b =>
              dsimp only at hA
              rw [hcn] at hA
              simp at hA
            | jnum n =>
              dsimp only at hA
              rw [hcn] at hA
              simp at hA
            | jarr l =>
              dsimp only at hA
              rw [hcn] at hA
              simp at hA
            | jobj fl =>
              dsimp only at hA
              rw [hcn] at hA
              simp at hA

/-- Claim C8 (amended): the spec's example list parses to exactly
`{"Paper": date(2024,1,1)}`; in general, for every services list whose
entries are well-typed (`goodEntry`: dict entries, string `nextPickup`
when truthy, hashable `title` when inserted), the parse result equals the
entrywise skip-rule mapping `parseServicesSpec` — entries missing `title`
or `nextPickup` and entries whose `nextPickup` does not parse are skipped
without raising, and the remaining entries all appear. Skipping is
governed by Python's actual `strptime("%Y-%m-%d")` semantics, which also
accepts non-zero-padded months and days (e.g. `"2024-1-1"`), not only the
exact textual `YYYY-MM-DD` pattern. -/
theorem C8_amended :
    parse_collection_dates exampleServicesDoc
      = .ok [(.strK "Paper", ⟨2024, 1, 1⟩)] ∧
    (∀ services : List JValue, services.all goodEntry = true →
      ∀ fields, lookupJ fields "services" = some (.jarr services) →
        parse_collection_dates (.jobj fields) = .ok (parseServicesSpec services)) := by
  constructor
  · rfl
  · intro services hall fields hf
    unfold parse_collection_dates
    simp only [jget, hf]
    exact parseServicesLoop_spec services [] hall

/-- Claim C8, counterexample to "every entry whose `nextPickup` does not
match the exact `YYYY-MM-DD` pattern is skipped": `"2024-1-1"` does not
match the exact pattern, yet `strptime` accepts it (leading zeroes are
optional for `%m` and `%d`), so the entry is parsed and appears in the
result instead of being skipped. -/
theorem C8_counterexample :
    exactYMDPattern "2024-1-1" = false ∧
    parse_collection_dates (.jobj [("services", .jarr
      [.jobj [("title", JValue.jstr "X"), ("nextPickup", JValue.jstr "2024-1-1")]])])
      = .ok [(.strK "X", ⟨2024, 1, 1⟩)] :=
  ⟨rfl, rfl⟩

theorem C8_witness :
    ([JValue.jobj [("title", JValue.jstr "Paper"),
        ("nextPickup", JValue.jstr "2024-01-01")],
      JValue.jobj [("title", JValue.jstr "Glass")],
      JValue.jobj [("title", JValue.jstr "Food"),
        ("nextPickup", JValue.jstr "not-a-date")]].all goodEntry = true) ∧
    parse_collection_dates (.jobj [("services", .jarr
      [JValue.jobj [("title", JValue.jstr "Paper"),
        ("nextPickup", JValue.jstr "2024-01-01")],
       JValue.jobj [("title", JValue.jstr "Glass")],
       JValue.jobj [("title", JValue.jstr "Food"),
        ("nextPickup", JValue.jstr "not-a-date")]])])
      = .ok (parseServicesSpec
        [JValue.jobj [("title", JValue.jstr "Paper"),
          ("nextPickup", JValue.jstr "2024-01-01")],
         JValue.jobj [("title", JValue.jstr "Glass")],
         JValue.jobj [("title", JValue.jstr "Food"),
          ("nextPickup", JValue.jstr "not-a-date")]]) := by
  refine ⟨rfl, ?_⟩
  exact C8_amended.2
    [JValue.jobj [("title", JValue.jstr "Paper"),
      ("nextPickup", JValue.jstr "2024-01-01")],
     JValue.jobj [("title", JValue.jstr "Glass")],
     JValue.jobj [("title", JValue.jstr "Food"),
      ("nextPickup", JValue.jstr "not-a-date")]] rfl
    [("services", .jarr
      [JValue.jobj [("title", JValue.jstr "Paper"),
        ("nextPickup", JValue.jstr "2024-01-01")],
       JValue.jobj [("title", JValue.jstr "Glass")],
       JValue.jobj [("title", JValue.jstr "Food"),
        ("nextPickup", JValue.jstr "not-a-date")]])] rfl
